import Mathlib

/-!
Verification of the FastAPI calculator app (`src/app.py`) and its
arithmetic module (`calculator.py`, imported by the app and its tests).

Numbers are modelled as rationals (exact arithmetic); Python exceptions
are modelled as an explicit sum type carried in `Except`.
-/

/-- Python exception values as seen by the handler: a `ValueError` carrying a
message, or an exception of any other kind. -/
inductive PyExc where
  | valueError (msg : String)
  | other (kind : String) (msg : String)
deriving DecidableEq, Repr

/-- Modelled from the spec: the `calculator` module is imported by
`src/app.py` and `tests/test_calculator.py` but is not present in `src/`.
Spec: `add(a, b) -> a + b`. Always succeeds for finite numeric inputs. -/
def add (a b : ℚ) : ℚ := a + b

/-- Modelled from the spec: `subtract(a, b) -> a - b`. Always succeeds. -/
def subtract (a b : ℚ) : ℚ := a - b

/-- Modelled from the spec: `multiply(a, b) -> a * b`. Always succeeds. -/
def multiply (a b : ℚ) : ℚ := a * b

/-- Modelled from the spec: `divide(a, b) -> a / b`, failing with a
DivisionByZero error when `b == 0`. The error kind is `ValueError` and its
message is "Cannot divide by zero", both pinned by
`tests/test_calculator.py::TestDivide.test_divide_by_zero`. -/
def divide (a b : ℚ) : Except PyExc ℚ :=
  if b = 0 then .error (.valueError "Cannot divide by zero") else .ok (a / b)

/-- The view model handed to the template: `{"result": ..., "error": ...}`
in `src/app.py`. -/
structure ViewModel where
  result : Option ℚ
  error : Option String
deriving DecidableEq, Repr

/-- The view model produced by `index` (`GET /` in `src/app.py`):
`{"result": None, "error": None}`. -/
def indexVM : ViewModel := ⟨none, none⟩

/-- The body of the `try:` block in `calculate` (`src/app.py`): the
if/elif chain dispatching on `operation`. Parametric in the four arithmetic
functions (each of which may raise), so the handler's try/except structure is
stated once for arbitrary callee behaviour. Returns the value of the local
variable `result` (still `None` when no branch matches), or the exception
the selected callee raised. -/
def tryBody (addF subF mulF divF : ℚ → ℚ → Except PyExc ℚ)
    (a b : ℚ) (operation : String) : Except PyExc (Option ℚ) :=
  if operation = "add" then (addF a b).map some
  else if operation = "subtract" then (subF a b).map some
  else if operation = "multiply" then (mulF a b).map some
  else if operation = "divide" then (divF a b).map some
  else .ok none

/-- The `calculate` handler (`POST /` in `src/app.py`): run the dispatch
body under `try`, catch exactly `ValueError` into the view model's `error`
field, and let any other exception propagate out of the handler. -/
def calculate (addF subF mulF divF : ℚ → ℚ → Except PyExc ℚ)
    (a b : ℚ) (operation : String) : Except PyExc ViewModel :=
  match tryBody addF subF mulF divF a b operation with
  | .ok r => .ok ⟨r, none⟩
  | .error (.valueError m) => .ok ⟨none, some m⟩
  | .error e => .error e

/-- Lift a total arithmetic function to the exception-aware signature. -/
def liftTotal (f : ℚ → ℚ → ℚ) : ℚ → ℚ → Except PyExc ℚ :=
  fun a b => .ok (f a b)

/-- The `calculate` handler instantiated with the actual arithmetic module,
as `src/app.py` runs it. -/
def calculatePost (a b : ℚ) (operation : String) : Except PyExc ViewModel :=
  calculate (liftTotal add) (liftTotal subtract) (liftTotal multiply) divide
    a b operation

/-- C6: for all finite a and b, `add(a,b) = a+b`, `subtract(a,b) = a-b`,
`multiply(a,b) = a*b` exactly; none of the three has an error case (they are
total functions into ℚ, never returning an exception). -/
theorem C6_add_subtract_multiply_exact (a b : ℚ) :
    add a b = a + b ∧ subtract a b = a - b ∧ multiply a b = a * b ∧
    (∀ f ∈ [add, subtract, multiply], ∀ x y : ℚ,
      liftTotal f x y = Except.ok (f x y)) :=
  ⟨rfl, rfl, rfl, fun _ _ _ _ => rfl⟩

/-- C9: `add` is commutative. -/
theorem C9_add_comm (a b : ℚ) : add a b = add b a := by
  simp [add, add_comm]

/-- C2: for every finite a, `divide(a, 0)` fails with the DivisionByZero
error (a `ValueError`) rather than returning a value, and its message
contains "divide by zero" case-insensitively. -/
theorem C2_divide_by_zero (a : ℚ) :
    ∃ m, divide a 0 = Except.error (PyExc.valueError m) ∧
      "divide by zero".toList <:+: m.toList.map Char.toLower :=
  ⟨"Cannot divide by zero", by simp [divide], ⟨"cannot ".toList, [], rfl⟩⟩

/-- C7: for all finite a and b with b ≠ 0, `divide(a, b)` succeeds and
returns the quotient a / b. -/
theorem C7_divide_nonzero (a b : ℚ) (hb : b ≠ 0) :
    divide a b = Except.ok (a / b) := by
  simp [divide, hb]

/-- Witness for C7 at a = 10, b = 2. -/
theorem C7_divide_nonzero_witness :
    divide 10 2 = Except.ok 5 := by
  have h := C7_divide_nonzero 10 2 (by norm_num)
  rw [h]
  norm_num

/-- C1: for every POST whose selector is one of the four valid values, the
handler invokes exactly the corresponding arithmetic function; on success
`result` holds the returned value and `error` stays empty; on the
DivisionByZero failure `error` holds the failure's message and `result`
stays empty. -/
theorem C1_dispatch (a b : ℚ) :
    calculatePost a b "add" = Except.ok ⟨some (add a b), none⟩ ∧
    calculatePost a b "subtract" = Except.ok ⟨some (subtract a b), none⟩ ∧
    calculatePost a b "multiply" = Except.ok ⟨some (multiply a b), none⟩ ∧
    (b ≠ 0 → calculatePost a b "divide" = Except.ok ⟨some (a / b), none⟩) ∧
    (b = 0 →
      calculatePost a b "divide" =
        Except.ok ⟨none, some "Cannot divide by zero"⟩) := by
  refine ⟨rfl, rfl, rfl, fun hb => ?_, fun hb => ?_⟩
  · simp [calculatePost, calculate, tryBody, divide, Except.map, hb]
  · simp [calculatePost, calculate, tryBody, divide, Except.map, hb]

/-- Witness for C1 at a = 10, b = 2 and a = 10, b = 0. -/
theorem C1_dispatch_witness :
    calculatePost 10 2 "divide" = Except.ok ⟨some 5, none⟩ ∧
    calculatePost 10 0 "divide" =
      Except.ok ⟨none, some "Cannot divide by zero"⟩ := by
  constructor
  · have h := (C1_dispatch 10 2).2.2.2.1 (by norm_num)
    rw [h]; norm_num
  · exact (C1_dispatch 10 0).2.2.2.2 rfl

/-- C3: in the view model produced by any request — `GET /` or `POST /`
with any operands and any selector string — `result` and `error` are never
both non-empty. -/
theorem C3_never_both :
    (¬(indexVM.result ≠ none ∧ indexVM.error ≠ none)) ∧
    ∀ a b op vm, calculatePost a b op = Except.ok vm →
      ¬(vm.result ≠ none ∧ vm.error ≠ none) := by
  constructor
  · simp [indexVM]
  · intro a b op vm h
    unfold calculatePost calculate at h
    split at h
    · injection h with h; subst h; simp
    · injection h with h; subst h; simp
    · exact Except.noConfusion h

/-- Witness for C3 at a = 1, b = 2, operation "add". -/
theorem C3_never_both_witness :
    ¬((ViewModel.mk (some 3) none).result ≠ none ∧
      (ViewModel.mk (some 3) none).error ≠ none) :=
  C3_never_both.2 1 2 "add" ⟨some 3, none⟩ (by norm_num [Except.map, calculatePost,
    calculate, tryBody, liftTotal, add])

/-- C4 counterexample: the POST handler run with selector "noop" (outside
the four valid values) produces a view model with `result` and `error` both
empty, so it is not true that exactly one field is populated on every POST
request. -/
theorem C4_counterexample :
    ∃ vm, calculatePost 1 1 "noop" = Except.ok vm ∧
      vm.result = none ∧ vm.error = none :=
  ⟨⟨none, none⟩, rfl, rfl, rfl⟩

/-- C4 amended: for every POST request whose selector is one of the four
valid values, exactly one of `result` and `error` is populated; both may be
empty on the initial GET page load, and also on a POST whose selector is
outside the four valid values. -/
theorem C4_exactly_one (a b : ℚ) (op : String)
    (hop : op = "add" ∨ op = "subtract" ∨ op = "multiply" ∨ op = "divide") :
    ∀ vm, calculatePost a b op = Except.ok vm →
      ((vm.result ≠ none ∧ vm.error = none) ∨
        (vm.result = none ∧ vm.error ≠ none)) := by
  intro vm h
  rcases hop with h1 | h1 | h1 | h1 <;> subst h1
  · injection h with h; subst h; simp
  · injection h with h; subst h; simp
  · injection h with h; subst h; simp
  · by_cases hb : b = 0 <;>
      simp only [calculatePost, calculate, tryBody, divide, hb] at h <;>
      (injection h with h; subst h; simp)

/-- Witness for C4 at a = 1, b = 2, operation "add". -/
theorem C4_exactly_one_witness :
    ((ViewModel.mk (some 3) none).result ≠ none ∧
      (ViewModel.mk (some 3) none).error = none) ∨
    ((ViewModel.mk (some 3) none).result = none ∧
      (ViewModel.mk (some 3) none).error ≠ none) :=
  C4_exactly_one 1 2 "add" (Or.inl rfl) ⟨some 3, none⟩
    (by norm_num [Except.map, calculatePost, calculate, tryBody, liftTotal, add])

/-- C5: for every selector outside the four known strings, the handler
falls through to a no-operation-performed state: whatever the four
arithmetic functions would do, none of them is invoked, no exception
escapes, and `result` and `error` both stay empty. -/
theorem C5_unknown_selector (addF subF mulF divF : ℚ → ℚ → Except PyExc ℚ)
    (a b : ℚ) (op : String)
    (h : op ∉ (["add", "subtract", "multiply", "divide"] : List String)) :
    calculate addF subF mulF divF a b op = Except.ok ⟨none, none⟩ := by
  simp only [List.mem_cons, List.not_mem_nil, or_false, not_or] at h
  obtain ⟨h1, h2, h3, h4⟩ := h
  simp [calculate, tryBody, h1, h2, h3, h4]

/-- Witness for C5 at operation "modulo" with the real arithmetic module. -/
theorem C5_unknown_selector_witness :
    calculate (liftTotal add) (liftTotal subtract) (liftTotal multiply)
      divide 1 2 "modulo" = Except.ok ⟨none, none⟩ :=
  C5_unknown_selector (liftTotal add) (liftTotal subtract)
    (liftTotal multiply) divide 1 2 "modulo" (by decide)

/-- C8: the handler catches only `ValueError`; for each of the four
operations, if the invoked function fails with an exception of any other
kind, that exception propagates out of the handler instead of being turned
into the view model's `error` field. -/
theorem C8_other_kinds_propagate
    (f₁ f₂ f₃ f₄ : ℚ → ℚ → Except PyExc ℚ) (a b : ℚ) (kind msg : String) :
    calculate (fun _ _ => .error (.other kind msg)) f₂ f₃ f₄ a b "add" =
      Except.error (.other kind msg) ∧
    calculate f₁ (fun _ _ => .error (.other kind msg)) f₃ f₄ a b "subtract" =
      Except.error (.other kind msg) ∧
    calculate f₁ f₂ (fun _ _ => .error (.other kind msg)) f₄ a b "multiply" =
      Except.error (.other kind msg) ∧
    calculate f₁ f₂ f₃ (fun _ _ => .error (.other kind msg)) a b "divide" =
      Except.error (.other kind msg) :=
  ⟨rfl, rfl, rfl, rfl⟩

/-- C10: the single catch wraps the entire dispatch, so a `ValueError`
raised by any of the four operations — not just divide — is converted into
the view model's `error` field, set to the failure's message verbatim, with
`result` empty, rather than propagating as an unhandled fault. -/
theorem C10_valueerror_uniform
    (f₁ f₂ f₃ f₄ : ℚ → ℚ → Except PyExc ℚ) (a b : ℚ) (m : String) :
    calculate (fun _ _ => .error (.valueError m)) f₂ f₃ f₄ a b "add" =
      Except.ok ⟨none, some m⟩ ∧
    calculate f₁ (fun _ _ => .error (.valueError m)) f₃ f₄ a b "subtract" =
      Except.ok ⟨none, some m⟩ ∧
    calculate f₁ f₂ (fun _ _ => .error (.valueError m)) f₄ a b "multiply" =
      Except.ok ⟨none, some m⟩ ∧
    calculate f₁ f₂ f₃ (fun _ _ => .error (.valueError m)) a b "divide" =
      Except.ok ⟨none, some m⟩ :=
  ⟨rfl, rfl, rfl, rfl⟩

/-- Witness for C6: the membership-guarded conjunct applied to `add`. -/
theorem C6_add_subtract_multiply_exact_witness :
    liftTotal add 1 2 = Except.ok (add 1 2) :=
  (C6_add_subtract_multiply_exact 0 0).2.2.2 add (by simp) 1 2
